import Mathlib

/-!
Shallow embedding of `src/csv_to_sqlite.py` (function `csv_to_sqlite`).

The program reads a CSV into a pandas frame, normalizes two date columns,
six numeric columns and thirteen text columns, creates a fixed 21-column
SQLite table with CREATE TABLE IF NOT EXISTS, bulk-appends the normalized
rows with `DataFrame.to_sql(if_exists='append')`, reports the table's
total row count, and closes the connection; a `FileNotFoundError` and a
catch-all `except Exception` wrap the whole body.

Cells of the in-memory frame are modelled by `Cell` (a missing value /
NaN, a string, an integer, or a float value `PFloat`: an exact decimal
or ±Infinity).  The pandas date parser
`pd.to_datetime(format='%m/%d/%Y', errors='coerce')` is modelled by
`parseMMDDYYYY` (CPython strptime field regexes for `%m`, `%d`, `%Y` —
including the Unicode decimal digits `\d` matches in `%d`'s `[12]\d`
branch and in `%Y` —, calendar validity, and the datetime64[ns]
Timestamp range 1677-09-22 .. 2262-04-11 outside which pandas coerces
to NaT); `pd.to_numeric(errors='coerce')` by `parseNumber` (decimal
literals, the tokenizer's case-insensitive INF spellings, overflow of
huge exponents to Infinity); the column-level
`.fillna(0).astype(int)` by `astypeInt64` (int64 cast, truncation
toward zero in range and the x86-64 out-of-range result INT64_MIN)
together with the pre-connect IntCastingNaNError raised on non-finite
values, modelled in `preprocessError`; SQLite state by `Table` /
`Option Table`; the whole call by `csv_to_sqlite`, which also records
whether a connection was opened and whether it was closed.
-/

namespace CsvToSqlite

/-- An exact decimal number `num * 10 ^ exp`, the value class produced
by parsing a decimal literal.  Floats are modelled by these exact
decimals: the binary-double rounding of IEEE floats is not modelled,
the claims under verification only concern exact decimal values. -/
structure Dec where
  num : Int
  exp : Int
deriving DecidableEq, Repr

/-- The decimal zero, pandas' fill value `0.0`. -/
def Dec.zero : Dec := ⟨0, 0⟩

/-- The rational value of an exact decimal. -/
def Dec.toQ (d : Dec) : ℚ :=
  if 0 ≤ d.exp then (d.num : ℚ) * (10 : ℚ) ^ d.exp.toNat
  else (d.num : ℚ) / (10 : ℚ) ^ (-d.exp).toNat

/-- A float64 value as the pipeline distinguishes them: a finite value
(an exact decimal) or one of the two infinities.  NaN is represented
separately (as `Option.none` of the parses, and as `Cell.missing` in
the frame), matching pandas' treatment of NaN as a missing value. -/
inductive PFloat where
  | fin (d : Dec)
  | pinf
  | ninf
deriving DecidableEq, Repr

/-- A cell of the in-memory frame produced by `pd.read_csv`: a missing
value (NaN), a string, an integer, or a float value. -/
inductive Cell where
  | missing
  | str (s : String)
  | int (n : Int)
  | float (v : PFloat)
deriving DecidableEq, Repr

/-! ## Date parsing: `pd.to_datetime(x, format='%m/%d/%Y', errors='coerce')` -/

/-- Gregorian leap-year test, as in Python's `calendar.isleap`. -/
def isLeap (y : Nat) : Bool :=
  (y % 4 == 0 && y % 100 != 0) || (y % 400 == 0)

/-- Number of days in a month of the proleptic Gregorian calendar. -/
def daysInMonth (y m : Nat) : Nat :=
  if m == 2 then (if isLeap y then 29 else 28)
  else if m == 4 || m == 6 || m == 9 || m == 11 then 30
  else 31

/-- Lexicographic order on (year, month, day) triples. -/
def dateTripleLE (y1 m1 d1 y2 m2 d2 : Nat) : Bool :=
  y1 < y2 || (y1 == y2 && (m1 < m2 || (m1 == m2 && d1 ≤ d2)))

/-- Split a character list at every occurrence of `sep` (like splitting
the string on the separator). -/
def splitChar (sep : Char) (l : List Char) : List (List Char) :=
  match l with
  | [] => [[]]
  | c :: rest =>
    let r := splitChar sep rest
    if c == sep then [] :: r
    else
      match r with
      | [] => [[c]]
      | a :: as => (c :: a) :: as

/-- All characters are ASCII digits. -/
def allDigits (l : List Char) : Bool :=
  l.all (fun c => c.isDigit)

/-- Numeric value of a list of ASCII digits. -/
def digitsVal (l : List Char) : Nat :=
  l.foldl (fun a c => a * 10 + (c.toNat - 48)) 0

/-- Start code points of the aligned runs of ten Unicode decimal digits
(category Nd, each run carrying values 0..9 in order), Unicode 14.0 as
shipped with CPython 3.11; Python's regex `\d` matches exactly these
characters and `int()` accepts them with these values. -/
def ndStarts : List Nat :=
  [48, 1632, 1776, 1984, 2406, 2534, 2662, 2790, 2918, 3046, 3174,
   3302, 3430, 3558, 3664, 3792, 3872, 4160, 4240, 6112, 6160, 6470,
   6608, 6784, 6800, 6992, 7088, 7232, 7248, 42528, 43216, 43264,
   43472, 43504, 43600, 44016, 65296, 66720, 68912, 69734, 69872,
   69942, 70096, 70384, 70736, 70864, 71248, 71360, 71472, 71904,
   72016, 72784, 73040, 73120, 92768, 92864, 93008, 120782, 120792,
   120802, 120812, 120822, 123200, 123632, 125264, 130032]

/-- Decimal value of a Unicode decimal digit (category Nd), `none` for
any other character. -/
def ndVal? (c : Char) : Option Nat :=
  ndStarts.findSome? (fun s =>
    if s ≤ c.toNat ∧ c.toNat ≤ s + 9 then some (c.toNat - s) else none)

/-- Python `int()` of a digit string whose characters are all Unicode
decimal digits; `none` if any character is not one. -/
def ndVals? (l : List Char) : Option Nat :=
  l.foldl (fun acc c =>
    match acc, ndVal? c with
    | some a, some v => some (a * 10 + v)
    | _, _ => none) (some 0)

/-- The `%m` field of CPython strptime: regex `1[0-2]|0[1-9]|[1-9]`.
Every character of this regex is a literal ASCII digit, so a month
field is one or two ASCII digits with value 1..12. -/
def monthField (l : List Char) : Option Nat :=
  if (l.length == 1 || l.length == 2) && allDigits l then
    let v := digitsVal l
    if 1 ≤ v ∧ v ≤ 12 then some v else none
  else none

/-- The `%d` field of CPython strptime: regex `3[01]|[12]\d|0[1-9]|[1-9]`,
mirrored branch by branch.  Only the `\d` after a literal `1` or `2`
matches any Unicode decimal digit (Python `re` semantics); every other
position is a literal ASCII digit.  The value is Python `int()` of the
matched text. -/
def dayField (l : List Char) : Option Nat :=
  match l with
  | [c] => if '1' ≤ c ∧ c ≤ '9' then some (c.toNat - 48) else none
  | [c1, c2] =>
    if c1 == '3' then
      if c2 == '0' then some 30 else if c2 == '1' then some 31 else none
    else if c1 == '1' ∨ c1 == '2' then
      match ndVal? c2 with
      | some v => some ((c1.toNat - 48) * 10 + v)
      | none => none
    else if c1 == '0' then
      if '1' ≤ c2 ∧ c2 ≤ '9' then some (c2.toNat - 48) else none
    else none
  | _ => none

/-- The `%Y` field of CPython strptime: regex `\d\d\d\d`, exactly four
Unicode decimal digits, converted with Python `int()`. -/
def yearField (l : List Char) : Option Nat :=
  if l.length == 4 then ndVals? l else none

/-- Strict parse of `pd.to_datetime(s, format='%m/%d/%Y',
errors='coerce')` applied to a string: the three slash-separated fields
must match the strptime regexes, the day must exist in the month, and —
because pandas stores datetime64 with nanosecond resolution — midnight
of the date must lie in the Timestamp range, i.e. the date must be
between 1677-09-22 and 2262-04-11; outside that range pandas raises
OutOfBoundsDatetime, which `errors='coerce'` turns into NaT.  Returns
`none` exactly when pandas produces NaT. -/
def parseMMDDYYYY (s : String) : Option (Nat × Nat × Nat) :=
  match splitChar '/' s.data with
  | [ms, ds, ys] =>
    match monthField ms, dayField ds, yearField ys with
    | some m, some d, some y =>
      if d ≤ daysInMonth y m then
        if dateTripleLE 1677 9 22 y m d && dateTripleLE y m d 2262 4 11 then
          some (y, m, d)
        else none
      else none
    | _, _, _ => none
  | _ => none

/-- Two-digit zero padding, as `%m` / `%d` render in strftime. -/
def pad2 (n : Nat) : String :=
  if n < 10 then "0" ++ toString n else toString n

/-- Four-digit zero padding for the year. -/
def pad4 (n : Nat) : String :=
  if n < 10 then "000" ++ toString n
  else if n < 100 then "00" ++ toString n
  else if n < 1000 then "0" ++ toString n
  else toString n

/-- ISO-8601 rendering `YYYY-MM-DD`, as `strftime('%Y-%m-%d')`. -/
def isoOf (y m d : Nat) : String :=
  pad4 y ++ "-" ++ pad2 m ++ "-" ++ pad2 d

/-- Normalization of one date-column cell, lines 23-28 of the source:
`pd.to_datetime(.., format='%m/%d/%Y', errors='coerce')`, then
`.dt.strftime('%Y-%m-%d')`, then `.fillna('1900-01-01')`.  Non-string
cells (NaN, numbers) are coerced to NaT by the strptime path and so also
receive the sentinel. -/
def normDateStr (c : Cell) : String :=
  match c with
  | .str s =>
    match parseMMDDYYYY s with
    | some (y, m, d) => isoOf y m d
    | none => "1900-01-01"
  | _ => "1900-01-01"

/-- Spec-side day field, plain ASCII reading of the DD slot: one or two
ASCII digits with value 1..31. -/
def dayFieldAscii (l : List Char) : Option Nat :=
  if (l.length == 1 || l.length == 2) && allDigits l then
    let v := digitsVal l
    if 1 ≤ v ∧ v ≤ 31 then some v else none
  else none

/-- Spec-side year field, plain ASCII reading of the YYYY slot: exactly
four ASCII digits. -/
def yearFieldAscii (l : List Char) : Option Nat :=
  if l.length == 4 && allDigits l then some (digitsVal l) else none

/-- Modelled from the spec: a string that is "a valid date in MM/DD/YYYY
textual form" with no further restriction — three slash-separated
fields of plain (ASCII) decimal digits in the MM / DD / four-digit
YYYY shapes, whose day exists in the month of the proleptic Gregorian
calendar.  This is the spec-side notion of valid date used to compare
the claimed behaviour with the code's `parseMMDDYYYY`, which
additionally rejects dates outside the pandas Timestamp range and
additionally accepts non-ASCII Unicode digits in the `\d` slots of the
strptime regexes. -/
def specValidMMDDYYYY (s : String) : Bool :=
  match splitChar '/' s.data with
  | [ms, ds, ys] =>
    match monthField ms, dayFieldAscii ds, yearFieldAscii ys with
    | some m, some d, some y => decide (1 ≤ y) && decide (d ≤ daysInMonth y m)
    | _, _, _ => false
  | _ => false

/-! ## Numeric parsing: `pd.to_numeric(x, errors='coerce')` -/

/-- Whitespace stripping applied by the pandas numeric parser. -/
def isSpaceChar (c : Char) : Bool :=
  c == ' ' || c == '\t' || c == '\n' || c == '\r'

/-- Strip leading and trailing whitespace from a character list. -/
def trimChars (l : List Char) : List Char :=
  ((l.dropWhile isSpaceChar).reverse.dropWhile isSpaceChar).reverse

/-- Read an optional leading sign. -/
def readSign : List Char → Int × List Char
  | '+' :: r => (1, r)
  | '-' :: r => (-1, r)
  | r => (1, r)

/-- Split at the first occurrence of a character, if present. -/
def splitFirst (sep : Char) : List Char → List Char × Option (List Char)
  | [] => ([], none)
  | c :: rest =>
    if c == sep then ([], some rest)
    else
      let (a, b) := splitFirst sep rest
      (c :: a, b)

/-- Parse an unsigned decimal mantissa `digits`, `digits.digits`,
`digits.` or `.digits` (at least one digit overall) to an exact
decimal. -/
def parseMantissa (l : List Char) : Option Dec :=
  let (ip, fpOpt) := splitFirst '.' l
  match fpOpt with
  | none =>
    if ip ≠ [] ∧ allDigits ip then some ⟨(digitsVal ip : Int), 0⟩ else none
  | some fp =>
    if (ip ≠ [] ∨ fp ≠ []) ∧ allDigits ip ∧ allDigits fp then
      some ⟨(digitsVal (ip ++ fp) : Int), -(fp.length : Int)⟩
    else none

/-- Lower-case an ASCII letter. -/
def lcChar (c : Char) : Char :=
  if 'A' ≤ c ∧ c ≤ 'Z' then Char.ofNat (c.toNat + 32) else c

/-- The INF spellings recognized by pandas' numeric tokenizer
(`precise_xstrtod`): case-insensitive `inf`, optionally followed by
case-insensitive `inity`, consuming the whole remaining text. -/
def isInfChars (l : List Char) : Bool :=
  let w := l.map lcChar
  w == "inf".data || w == "infinity".data

/-- Number of decimal digits of a natural number (1 for 0); the fuel
argument makes the recursion structural. -/
def digitCountAux : Nat → Nat → Nat
  | 0, _ => 1
  | fuel + 1, n => if n < 10 then 1 else 1 + digitCountAux fuel (n / 10)

/-- Number of decimal digits of a natural number. -/
def digitCount (n : Nat) : Nat := digitCountAux n n

/-- Parse of `pd.to_numeric(s, errors='coerce')` on a string, per the
pandas C parser (`floatify` / `precise_xstrtod`): optional surrounding
whitespace, optional sign, then either an INF spelling or a decimal
mantissa with optional `e`/`E` exponent (optional sign, at least one
ASCII digit).  A nonzero value whose decimal magnitude reaches 10^309
(beyond every finite float64; the parser's huge-exponent branch)
overflows to ±Infinity.  Returns `none` exactly when pandas produces
NaN.  Boundary values between DBL_MAX and 10^309, and binary rounding
of in-range literals, keep their exact decimal value in this model. -/
def parseNumber (s : String) : Option PFloat :=
  let l := trimChars s.data
  let (sgn, l1) := readSign l
  if isInfChars l1 then some (if sgn < 0 then .ninf else .pinf)
  else
    let (mant, expPart) :=
      match splitFirst 'e' l1 with
      | (a, some b) => (a, some b)
      | _ => splitFirst 'E' l1
    match parseMantissa mant with
    | none => none
    | some m =>
      let expTotal : Option Int :=
        match expPart with
        | none => some m.exp
        | some ec =>
          let (es, ed) := readSign ec
          if ed ≠ [] ∧ allDigits ed then some (m.exp + es * (digitsVal ed : Int))
          else none
      match expTotal with
      | none => none
      | some e =>
        if m.num = 0 then some (.fin ⟨0, e⟩)
        else if (digitCount m.num.natAbs : Int) + e ≥ 310 then
          some (if sgn < 0 then .ninf else .pinf)
        else some (.fin ⟨sgn * m.num, e⟩)

/-- Numeric value of a cell under `pd.to_numeric(errors='coerce')`:
NaN for a missing cell, the number itself for numeric cells, string
parse for strings. `none` models NaN. -/
def toNumericVal (c : Cell) : Option PFloat :=
  match c with
  | .missing => none
  | .str s => parseNumber s
  | .int n => some (.fin ⟨n, 0⟩)
  | .float v => some v

/-- Exact mathematical truncation toward zero of an exact decimal — the
spec-level meaning of "truncate": a decimal with nonnegative exponent
is an integer, and otherwise the fractional digits are cut off by
`Int.tdiv`, T-division, which truncates toward zero. -/
def truncDec (d : Dec) : Int :=
  if 0 ≤ d.exp then d.num * 10 ^ d.exp.toNat
  else d.num.tdiv (10 ^ (-d.exp).toNat)

/-- The element-wise value of numpy's int64 cast (`.astype(int)`) on a
float64: truncation toward zero when that truncation is representable
in int64, and otherwise the silent out-of-range result, which on
x86-64 (cvttsd2si) is INT64_MIN = -2^63 (e.g. 1e30 casts to
-9223372036854775808, not 10^30).  Non-finite inputs never reach the
cast in the pipeline: pandas raises IntCastingNaNError at column level
first (see `preprocessError`); they are mapped to the same
out-of-range result here. -/
def astypeInt64 (v : PFloat) : Int :=
  match v with
  | .fin d =>
    let t := truncDec d
    if -(2 ^ 63) ≤ t ∧ t < 2 ^ 63 then t else -(2 ^ 63)
  | _ => -(2 ^ 63)

/-! ## Column groups of the source (lines 23-42) and the table schema
(lines 51-75). -/

/-- The two date columns (lines 23-28). -/
def dateCols : List String := ["order_date", "ship_date"]

/-- The four REAL columns (lines 31, 33, 34, 35). -/
def floatCols : List String := ["sales", "discount", "profit", "shipping_cost"]

/-- The two INTEGER columns (lines 32, 36). -/
def intCols : List String := ["quantity", "year"]

/-- The thirteen text columns (lines 39-41). -/
def textCols : List String :=
  ["order_id", "ship_mode", "customer_name", "segment", "state",
   "country", "market", "region", "product_id", "category",
   "sub_category", "product_name", "order_priority"]

/-- The 21 columns of the CREATE TABLE statement, in schema order
(lines 52-74). -/
def schemaCols : List String :=
  ["order_id", "order_date", "ship_date", "ship_mode", "customer_name",
   "segment", "state", "country", "market", "region", "product_id",
   "category", "sub_category", "product_name", "sales", "quantity",
   "discount", "profit", "shipping_cost", "order_priority", "year"]

/-- The 21 required columns in the order the source indexes the frame:
the date columns (lines 23-24), the numeric columns (lines 31-36), then
the text columns (line 42). A column absent from the frame raises
KeyError at its first access. -/
def accessOrderCols : List String :=
  ["order_date", "ship_date", "sales", "quantity", "discount",
   "profit", "shipping_cost", "year"] ++ textCols

/-- Strip factors of ten from the mantissa into the exponent; the fuel
argument makes the recursion structural (ten-divisions terminate long
before the fuel runs out). -/
def stripZeros : Nat → Int → Int → Dec
  | 0, n, e => ⟨n, e⟩
  | fuel + 1, n, e =>
    if n ≠ 0 ∧ n % 10 = 0 then stripZeros fuel (n / 10) (e + 1) else ⟨n, e⟩

/-- Canonical form of an exact decimal: zero becomes `0e0`, otherwise
the mantissa carries no trailing zeros. -/
def decNormalize (d : Dec) : Dec :=
  if d.num = 0 then ⟨0, 0⟩ else stripZeros d.num.natAbs d.num d.exp

/-- Exponent suffix of CPython float repr: explicit sign and at least
two exponent digits (`1e+30`, `1e-05`). -/
def sciExp (e : Int) : String :=
  (if e < 0 then "-" else "+") ++ pad2 e.natAbs

/-- Python `str()` of a float64, on exact decimals: CPython's repr
algorithm prints the shortest round-tripping decimal, positional with a
forced `.0` for integral values below 10^16, positional down to 10^-4,
scientific (`D[.DDD]e±XX`) outside.  Rendering the exact decimal this
way coincides with CPython on every value whose shortest repr is its
exact decimal form (all values the claims touch); decimals beyond
float64 precision (17+ significant digits) would be rounded by the
actual double and are rendered exactly here instead. -/
def floatStr (v : PFloat) : String :=
  match v with
  | .pinf => "inf"
  | .ninf => "-inf"
  | .fin d0 =>
    let d := decNormalize d0
    if d.num = 0 then "0.0"
    else
      let sign := if d.num < 0 then "-" else ""
      let mag := d.num.natAbs
      let ds := (toString mag).data
      let p : Int := (ds.length : Int) + d.exp
      if 0 < p ∧ p ≤ 16 then
        if 0 ≤ d.exp then
          sign ++ toString (mag * 10 ^ d.exp.toNat) ++ ".0"
        else
          sign ++ String.mk (ds.take p.toNat) ++ "." ++ String.mk (ds.drop p.toNat)
      else if p ≤ 0 ∧ -4 < p then
        sign ++ "0." ++ String.mk (List.replicate (-p).toNat '0') ++ String.mk ds
      else
        match ds with
        | [] => "0.0"
        | c :: rest =>
          sign ++ String.mk [c] ++ (if rest.isEmpty then "" else "." ++ String.mk rest)
            ++ "e" ++ sciExp (p - 1)

/-- Python `str()` applied to a cell after `fillna('')` (line 42):
strings stay, integers print in decimal, floats print as CPython repr
(see `floatStr`; in particular a float64 order_id 123.0 prints as
`123.0`, and Infinity as `inf`). -/
def textNorm (c : Cell) : String :=
  match c with
  | .missing => ""
  | .str s => s
  | .int n => toString n
  | .float v => floatStr v

/-- Normalization of one cell as a function of its column name,
combining lines 23-42 of the source: date columns get the strftime
string with sentinel fallback, REAL columns get
`pd.to_numeric(errors='coerce').fillna(0.0)`, INTEGER columns
additionally `.astype(int)` (the element-wise int64 cast; the
column-level IntCastingNaNError on non-finite values is raised in
`preprocessError` before any cell reaches this map), text columns get
`fillna('').astype(str)`, and any other column passes through
unchanged. -/
def normCellNamed (h : String) (c : Cell) : Cell :=
  if dateCols.contains h then .str (normDateStr c)
  else if floatCols.contains h then .float ((toNumericVal c).getD (.fin Dec.zero))
  else if intCols.contains h then .int (astypeInt64 ((toNumericVal c).getD (.fin Dec.zero)))
  else if textCols.contains h then .str (textNorm c)
  else c

/-! ## The frame, the database state, and the whole conversion. -/

/-- The in-memory pandas frame: a header row and data rows, each row's
cells aligned positionally with the headers. -/
structure Frame where
  headers : List String
  rows : List (List Cell)
deriving DecidableEq, Repr

/-- A SQLite table: its column names and its rows, each row aligned
positionally with the columns.  `Cell.missing` doubles as SQL NULL. -/
structure Table where
  cols : List String
  rows : List (List Cell)
deriving DecidableEq, Repr

/-- The state of the destination database restricted to the one
destination table: `none` when the table does not exist (fresh or
absent database file). -/
def emptyTable : Table := ⟨schemaCols, []⟩

/-- The Python exceptions the source can raise inside the `try` block:
`FileNotFoundError` from `pd.read_csv`, `KeyError` from indexing the
frame with an absent column (lines 23-42), pandas `IntCastingNaNError`
from `.astype(int)` on a column holding a non-finite value (lines 32
and 36), and `sqlite3.OperationalError` from `to_sql` inserting a
column the table does not have (line 80). -/
inductive PyErr where
  | fileNotFoundError
  | keyError (col : String)
  | intCastingNaNError
  | operationalError (col : String)
deriving DecidableEq, Repr

/-- Normalization of one frame row (positional cells zipped with the
headers), lines 23-42 of the source applied row-wise. -/
def normalizeRow (headers : List String) (row : List Cell) : List Cell :=
  List.zipWith normCellNamed headers row

/-- The cell of a row under a named column (rows are positional,
aligned with the headers). -/
def cellAt (headers : List String) (row : List Cell) (name : String) : Cell :=
  match headers.findIdx? (fun h => h == name) with
  | some i => row.getD i Cell.missing
  | none => Cell.missing

/-- A cell whose `to_numeric` value is ±Infinity — after `fillna(0)`
these are the values on which `.astype(int)` raises
IntCastingNaNError. -/
def isInfCell (c : Cell) : Bool :=
  match toNumericVal c with
  | some .pinf => true
  | some .ninf => true
  | _ => false

/-- Some cell of the named column parses to ±Infinity. -/
def hasInf (df : Frame) (name : String) : Bool :=
  df.rows.any (fun row => isInfCell (cellAt df.headers row name))

/-- The first exception of the preprocessing block, lines 23-42, in
source order; `none` when preprocessing succeeds.  Each absent required
column raises KeyError at the line of its first access (order_date and
ship_date at lines 23-24, the numeric columns at lines 31-36, the text
columns at line 42); the `.astype(int)` of quantity (line 32) and year
(line 36) raises IntCastingNaNError when the `fillna(0)`-ed column
still holds a non-finite value, before the later columns are touched. -/
def preprocessError (df : Frame) : Option PyErr :=
  if !df.headers.contains "order_date" then some (.keyError "order_date")
  else if !df.headers.contains "ship_date" then some (.keyError "ship_date")
  else if !df.headers.contains "sales" then some (.keyError "sales")
  else if !df.headers.contains "quantity" then some (.keyError "quantity")
  else if hasInf df "quantity" then some .intCastingNaNError
  else if !df.headers.contains "discount" then some (.keyError "discount")
  else if !df.headers.contains "profit" then some (.keyError "profit")
  else if !df.headers.contains "shipping_cost" then some (.keyError "shipping_cost")
  else if !df.headers.contains "year" then some (.keyError "year")
  else if hasInf df "year" then some .intCastingNaNError
  else ((textCols.filter (fun c => !df.headers.contains c)).head?).map PyErr.keyError

/-- The preprocessing block, lines 23-42: raises the first error in
source order (see `preprocessError`), and otherwise rewrites every
cell of the named columns. -/
def normalizeFrame (df : Frame) : Except PyErr Frame :=
  match preprocessError df with
  | some e => .error e
  | none => .ok ⟨df.headers, df.rows.map (normalizeRow df.headers)⟩

/-- Rearrange one normalized frame row into the table's column order,
as the INSERT generated by `to_sql` names the frame's columns: a table
column absent from the frame receives NULL. -/
def alignRow (tableCols frameHeaders : List String) (row : List Cell) : List Cell :=
  tableCols.map (fun c =>
    match frameHeaders.findIdx? (fun h => h == c) with
    | some i => row.getD i Cell.missing
    | none => Cell.missing)

/-- The bulk append of line 80, `df.to_sql(table_name, conn,
if_exists='append', index=False)`: if the frame has a column the table
does not have, the generated INSERT fails with OperationalError
("table has no column named ...") and no row is inserted; otherwise all
normalized rows are appended in order. -/
def appendRows (t : Table) (df : Frame) : Except PyErr Table :=
  match df.headers.find? (fun h => !t.cols.contains h) with
  | some c => .error (.operationalError c)
  | none => .ok ⟨t.cols, t.rows ++ df.rows.map (alignRow t.cols df.headers)⟩

/-- Observable state of one conversion call: the destination table
(`none` if never created), whether `sqlite3.connect` ran (line 46), and
whether `conn.close()` ran (line 90). -/
structure ConvState where
  db : Option Table
  connOpened : Bool
  connClosed : Bool
deriving DecidableEq, Repr

/-- The body of the `try` block, lines 16-91, with its side effects on
the database and connection made explicit.  `csvOpt` is the source file:
`none` when the path does not exist (read_csv raises
FileNotFoundError).  On success the returned number is the reported
`SELECT COUNT(*)` of the whole table after insertion (lines 84-86).
The `CREATE TABLE IF NOT EXISTS` of lines 51-76 is `Option.getD`: it
keeps an existing table untouched and otherwise creates the empty
21-column table, and the creation is committed (line 76) before the
insertion is attempted.  `conn.close()` (line 90) runs only after a
successful insertion, because it sits inside the `try` block. -/
def convertInner (csvOpt : Option Frame) (db0 : Option Table) :
    ConvState × Except PyErr Nat :=
  match csvOpt with
  | none => (⟨db0, false, false⟩, .error .fileNotFoundError)
  | some df =>
    match normalizeFrame df with
    | .error e => (⟨db0, false, false⟩, .error e)
    | .ok ndf =>
      let t0 := db0.getD emptyTable
      match appendRows t0 ndf with
      | .error e => (⟨some t0, true, false⟩, .error e)
      | .ok t1 => (⟨some t1, true, true⟩, .ok t1.rows.length)

/-- Outcome of one conversion call as reported on stdout: the success
report with the counted rows, the dedicated FileNotFoundError report
(line 93-94), or the catch-all report of any other exception
(lines 95-96). -/
inductive Outcome where
  | success (reported : Nat)
  | fileNotFound
  | caught (e : PyErr)
deriving DecidableEq, Repr

/-- Result of one conversion call: final database state, reported
outcome, and the connection flags. -/
structure RunResult where
  db : Option Table
  outcome : Outcome
  connOpened : Bool
  connClosed : Bool
deriving DecidableEq, Repr

/-- The whole function `csv_to_sqlite` (lines 5-96): the `try` body
wrapped by the `except FileNotFoundError` handler and the catch-all
`except Exception` handler.  Every exception of the body is converted
into a printed report, so the function always returns. -/
def csv_to_sqlite (csvOpt : Option Frame) (db0 : Option Table) : RunResult :=
  let (st, r) := convertInner csvOpt db0
  match r with
  | .ok n => ⟨st.db, .success n, st.connOpened, st.connClosed⟩
  | .error .fileNotFoundError => ⟨st.db, .fileNotFound, st.connOpened, st.connClosed⟩
  | .error e => ⟨st.db, .caught e, st.connOpened, st.connClosed⟩

/-! ## Concrete inputs used by witnesses and counterexamples. -/

/-- A data row with all 21 cells empty. -/
def blankRow : List Cell := List.replicate 21 Cell.missing

/-- A one-row CSV whose header is exactly the 21-column schema. -/
def demoCsv : Frame := ⟨schemaCols, [blankRow]⟩

/-- A two-row CSV whose two data rows are exact duplicates. -/
def demoCsv2 : Frame := ⟨schemaCols, [blankRow, blankRow]⟩

/-- A CSV with all 21 required columns plus one extra column. -/
def extraColCsv : Frame :=
  ⟨schemaCols ++ ["extra_col"], [List.replicate 22 Cell.missing]⟩

/-- A 21-cell data row whose quantity cell (schema position 15) is the
string `inf`. -/
def infRow21 : List Cell :=
  List.replicate 15 Cell.missing ++ [Cell.str "inf"] ++ List.replicate 5 Cell.missing

/-- A one-row CSV with the schema header and an `inf` quantity. -/
def infQtyCsv : Frame := ⟨schemaCols, [infRow21]⟩

/-- A one-row CSV with all 21 required columns plus an extra column,
whose quantity value is `inf`. -/
def infExtraCsv : Frame :=
  ⟨schemaCols ++ ["extra_col"], [infRow21 ++ [Cell.missing]]⟩

/-! ## Helper lemmas shared by the claim theorems. -/

set_option maxHeartbeats 1000000 in
/-- Preprocessing never raises FileNotFoundError: its errors are
KeyError and IntCastingNaNError, so they land in the catch-all
handler, not the dedicated FileNotFoundError handler. -/
theorem preprocessError_ne_fnf (df : Frame) :
    preprocessError df ≠ some .fileNotFoundError := by
  intro h
  unfold preprocessError at h
  split_ifs at h <;> simp [Option.map_eq_some'] at h

/-- When the two guards hold (preprocessing succeeds; no frame column
outside the destination table's columns), the whole run is the
success run: table committed with the normalized rows appended in
order, total count reported, connection opened and closed. -/
theorem run_of_guards (csv : Frame) (db0 : Option Table)
    (hpre : preprocessError csv = none)
    (hfd : csv.headers.find? (fun c => !(db0.getD emptyTable).cols.contains c) = none) :
    csv_to_sqlite (some csv) db0 =
      ⟨some ⟨(db0.getD emptyTable).cols,
             (db0.getD emptyTable).rows ++
               csv.rows.map (fun row =>
                 alignRow (db0.getD emptyTable).cols csv.headers (normalizeRow csv.headers row))⟩,
       .success ((db0.getD emptyTable).rows.length + csv.rows.length),
       true, true⟩ := by
  have hnf : normalizeFrame csv = .ok ⟨csv.headers, csv.rows.map (normalizeRow csv.headers)⟩ := by
    unfold normalizeFrame
    rw [hpre]
  have hap : appendRows (db0.getD emptyTable) ⟨csv.headers, csv.rows.map (normalizeRow csv.headers)⟩ =
      .ok ⟨(db0.getD emptyTable).cols,
           (db0.getD emptyTable).rows ++
             (csv.rows.map (normalizeRow csv.headers)).map
               (alignRow (db0.getD emptyTable).cols csv.headers)⟩ := by
    simp only [appendRows]
    rw [hfd]
  simp only [csv_to_sqlite, convertInner, hnf, hap]
  simp [List.map_map, Function.comp]

/-- Truncation of a nonnegative decimal is its floor. -/
theorem truncDec_floor (d : Dec) (h : 0 ≤ d.toQ) : truncDec d = ⌊d.toQ⌋ := by
  rcases d with ⟨num, exp⟩
  unfold Dec.toQ at h
  unfold truncDec Dec.toQ
  by_cases hexp : 0 ≤ exp
  · simp only [if_pos hexp] at h ⊢
    have hc : ((num : ℚ) * (10 : ℚ) ^ exp.toNat) = ((num * 10 ^ exp.toNat : ℤ) : ℚ) := by
      push_cast
      ring
    rw [hc, Int.floor_intCast]
  · simp only [if_neg hexp] at h ⊢
    have h10 : (0 : ℚ) < (10 : ℚ) ^ (-exp).toNat := by positivity
    have hnum : 0 ≤ num := by
      by_contra hneg
      push_neg at hneg
      have : ((num : ℚ) / (10 : ℚ) ^ (-exp).toNat) < 0 :=
        div_neg_of_neg_of_pos (by exact_mod_cast hneg) h10
      linarith
    have hc : ((num : ℚ) / (10 : ℚ) ^ (-exp).toNat) =
        ((num : ℚ) / (((10 ^ (-exp).toNat : ℕ)) : ℚ)) := by
      push_cast
      ring
    rw [hc, Rat.floor_intCast_div_natCast, Int.tdiv_eq_ediv hnum (by positivity)]
    norm_cast

/-- Truncation of a nonpositive decimal is its ceiling; together with
`truncDec_floor` this is exactly truncation toward zero, not rounding. -/
theorem truncDec_ceil (d : Dec) (h : d.toQ ≤ 0) : truncDec d = ⌈d.toQ⌉ := by
  rcases d with ⟨num, exp⟩
  unfold Dec.toQ at h
  unfold truncDec Dec.toQ
  by_cases hexp : 0 ≤ exp
  · simp only [if_pos hexp] at h ⊢
    have hc : ((num : ℚ) * (10 : ℚ) ^ exp.toNat) = ((num * 10 ^ exp.toNat : ℤ) : ℚ) := by
      push_cast
      ring
    rw [hc, Int.ceil_intCast]
  · simp only [if_neg hexp] at h ⊢
    have h10 : (0 : ℚ) < (10 : ℚ) ^ (-exp).toNat := by positivity
    have hnum : num ≤ 0 := by
      by_contra hpos
      push_neg at hpos
      have : (0 : ℚ) < ((num : ℚ) / (10 : ℚ) ^ (-exp).toNat) :=
        div_pos (by exact_mod_cast hpos) h10
      linarith
    have hc : ((num : ℚ) / (10 : ℚ) ^ (-exp).toNat) =
        -((((-num : ℤ)) : ℚ) / (((10 ^ (-exp).toNat : ℕ)) : ℚ)) := by
      push_cast
      ring
    rw [hc, Int.ceil_neg, Rat.floor_intCast_div_natCast]
    have h2 : (-num).tdiv ((10 : ℤ) ^ (-exp).toNat) = (-num) / ((10 : ℤ) ^ (-exp).toNat) :=
      Int.tdiv_eq_ediv (by omega) (by positivity)
    have h1 : num.tdiv ((10 : ℤ) ^ (-exp).toNat) = -((-num).tdiv ((10 : ℤ) ^ (-exp).toNat)) := by
      simp [Int.neg_tdiv]
    rw [h1, h2]
    norm_cast

/-- A run that reports success passed both guards. -/
theorem guards_of_success (csv : Frame) (db0 : Option Table) (n : Nat)
    (h : (csv_to_sqlite (some csv) db0).outcome = .success n) :
    preprocessError csv = none ∧
      csv.headers.find? (fun c => !(db0.getD emptyTable).cols.contains c) = none := by
  cases hpre : preprocessError csv with
  | some e =>
    have hnf : normalizeFrame csv = .error e := by
      unfold normalizeFrame
      rw [hpre]
    cases e <;> simp [csv_to_sqlite, convertInner, hnf] at h
  | none =>
    cases hfd : csv.headers.find? (fun c => !(db0.getD emptyTable).cols.contains c) with
    | some c =>
      have hnf : normalizeFrame csv = .ok ⟨csv.headers, csv.rows.map (normalizeRow csv.headers)⟩ := by
        unfold normalizeFrame
        rw [hpre]
      have hap : appendRows (db0.getD emptyTable) ⟨csv.headers, csv.rows.map (normalizeRow csv.headers)⟩ =
          .error (.operationalError c) := by
        simp only [appendRows]
        rw [hfd]
      simp [csv_to_sqlite, convertInner, hnf, hap] at h
    | none => exact ⟨rfl, rfl⟩

/-- Every run has one of four shapes: the FileNotFoundError report with
untouched state; a preprocessing error (KeyError or
IntCastingNaNError) caught before any connection; an OperationalError
caught after the table was created and committed but before any row
landed, with the connection left open; or the success run. Each shape
carries the guard facts that select it. -/
theorem run_shape (csvOpt : Option Frame) (db0 : Option Table) :
    (csvOpt = none ∧ csv_to_sqlite csvOpt db0 = ⟨db0, .fileNotFound, false, false⟩)
    ∨ (∃ csv e, csvOpt = some csv ∧ preprocessError csv = some e ∧
        csv_to_sqlite csvOpt db0 = ⟨db0, .caught e, false, false⟩)
    ∨ (∃ csv c, csvOpt = some csv ∧ preprocessError csv = none ∧
        csv.headers.find? (fun c => !(db0.getD emptyTable).cols.contains c) = some c ∧
        csv_to_sqlite csvOpt db0 = ⟨some (db0.getD emptyTable), .caught (.operationalError c), true, false⟩)
    ∨ (∃ csv, csvOpt = some csv ∧ preprocessError csv = none ∧
        csv.headers.find? (fun c => !(db0.getD emptyTable).cols.contains c) = none ∧
        csv_to_sqlite csvOpt db0 =
          ⟨some ⟨(db0.getD emptyTable).cols,
                 (db0.getD emptyTable).rows ++
                   csv.rows.map (fun row =>
                     alignRow (db0.getD emptyTable).cols csv.headers (normalizeRow csv.headers row))⟩,
           .success ((db0.getD emptyTable).rows.length + csv.rows.length),
           true, true⟩) := by
  cases csvOpt with
  | none => exact Or.inl ⟨rfl, rfl⟩
  | some csv =>
    cases hpre : preprocessError csv with
    | some e =>
      have hnf : normalizeFrame csv = .error e := by
        unfold normalizeFrame
        rw [hpre]
      refine Or.inr (Or.inl ⟨csv, e, rfl, hpre, ?_⟩)
      cases e with
      | fileNotFoundError => exact absurd hpre (preprocessError_ne_fnf csv)
      | keyError c => simp [csv_to_sqlite, convertInner, hnf]
      | intCastingNaNError => simp [csv_to_sqlite, convertInner, hnf]
      | operationalError c => simp [csv_to_sqlite, convertInner, hnf]
    | none =>
      have hnf : normalizeFrame csv = .ok ⟨csv.headers, csv.rows.map (normalizeRow csv.headers)⟩ := by
        unfold normalizeFrame
        rw [hpre]
      cases hfd : csv.headers.find? (fun c => !(db0.getD emptyTable).cols.contains c) with
      | some c =>
        have hap : appendRows (db0.getD emptyTable) ⟨csv.headers, csv.rows.map (normalizeRow csv.headers)⟩ =
            .error (.operationalError c) := by
          simp only [appendRows]
          rw [hfd]
        exact Or.inr (Or.inr (Or.inl ⟨csv, c, rfl, hpre, hfd,
          by simp [csv_to_sqlite, convertInner, hnf, hap]⟩))
      | none =>
        exact Or.inr (Or.inr (Or.inr ⟨csv, rfl, hpre, hfd, run_of_guards csv db0 hpre hfd⟩))

/-! ## Claim theorems. -/

/-- C1 (amended): for the date columns' cell normalization, a string
that parses under the strict `%m/%d/%Y` strptime pattern (whose `\d`
slots accept any Unicode decimal digit, and which requires the date to
lie in the pandas Timestamp range) is stored as its ISO-8601
rendering; every string that does not parse, and every missing value,
is stored as the sentinel `1900-01-01`; in particular `3/5/2014` is
stored as `2014-03-05` and the Arabic-digit `1/2/٢٠١٤` as
`2014-01-02`. -/
theorem C1_date_normalization (s : String) :
    (∀ y m d, parseMMDDYYYY s = some (y, m, d) → normDateStr (Cell.str s) = isoOf y m d)
    ∧ (parseMMDDYYYY s = none → normDateStr (Cell.str s) = "1900-01-01")
    ∧ normDateStr Cell.missing = "1900-01-01"
    ∧ normDateStr (Cell.str "3/5/2014") = "2014-03-05"
    ∧ normDateStr (Cell.str "1/2/٢٠١٤") = "2014-01-02"
    ∧ normDateStr (Cell.str "2014-03-05") = "1900-01-01"
    ∧ normDateStr (Cell.str "") = "1900-01-01"
    ∧ normDateStr (Cell.str "13/01/2014") = "1900-01-01" := by
  refine ⟨?_, ?_, rfl, rfl, rfl, rfl, rfl, rfl⟩
  · intro y m d hp
    simp [normDateStr, hp]
  · intro hp
    simp [normDateStr, hp]

/-- C1 witness: the amended theorem applied at the spec's own example
`3/5/2014`. -/
theorem C1_date_normalization_witness :
    parseMMDDYYYY "3/5/2014" = some (2014, 3, 5)
    ∧ normDateStr (Cell.str "3/5/2014") = isoOf 2014 3 5 :=
  ⟨rfl, (C1_date_normalization "3/5/2014").1 2014 3 5 rfl⟩

/-- C1 counterexample, two dropped cases of the original claim.
First, `01/01/1500` is a valid date in MM/DD/YYYY textual form, so the
claim says it is stored as its ISO rendering `1500-01-01`; the code
coerces it to NaT (it is outside the datetime64[ns] Timestamp range)
and stores the sentinel `1900-01-01` instead.  Second, the
Arabic-digit `1/2/٢٠١٤` is not a valid MM/DD/YYYY form in the claim's
plain-digit reading, so the claim says it stores the sentinel; the
strptime regexes match its Unicode digits and the code stores
`2014-01-02`. -/
theorem C1_counterexample :
    specValidMMDDYYYY "01/01/1500" = true
    ∧ normDateStr (Cell.str "01/01/1500") = "1900-01-01"
    ∧ isoOf 1500 1 1 = "1500-01-01"
    ∧ normDateStr (Cell.str "01/01/1500") ≠ isoOf 1500 1 1
    ∧ specValidMMDDYYYY "1/2/٢٠١٤" = false
    ∧ normDateStr (Cell.str "1/2/٢٠١٤") = "2014-01-02"
    ∧ normDateStr (Cell.str "1/2/٢٠١٤") ≠ "1900-01-01" := by
  refine ⟨rfl, rfl, rfl, by decide, rfl, rfl, by decide⟩

/-- C2 counterexample: `1e30` parses as a number, and its truncation
toward zero is 10^30, so the claim says quantity `1e30` stores 10^30;
the program's `.astype(int)` is an int64 numpy cast, which on the
finite but out-of-range 1e30 silently yields INT64_MIN
(-9223372036854775808), not 10^30. -/
theorem C2_counterexample :
    toNumericVal (Cell.str "1e30") = some (.fin ⟨1, 30⟩)
    ∧ truncDec ⟨1, 30⟩ = 10 ^ 30
    ∧ normCellNamed "quantity" (Cell.str "1e30") = Cell.int (-(2 ^ 63))
    ∧ ((-(2 ^ 63) : Int)) ≠ 10 ^ 30 := by
  refine ⟨by decide, by decide, by decide, by decide⟩

/-- C2 (amended): for the four REAL columns, a cell whose `to_numeric`
parse succeeds (finite or ±Infinity) is stored as exactly that value
and an unparseable or missing cell as 0.0.  For the two INTEGER
columns an unparseable or missing cell stores 0, and a parsed finite
value is stored as its int64 cast — the truncation toward zero
whenever that truncation is representable in int64 (3.9 stores 3,
-3.9 stores -3, a floor for nonnegative and a ceiling for nonpositive
values, never a rounding), and the out-of-range garbage value -2^63
otherwise; a ±Infinity value in an integer column instead aborts the
whole conversion with IntCastingNaNError before any database activity. -/
theorem C2_numeric_normalization (h : String) (c : Cell) (v : PFloat) (d : Dec) :
    (h ∈ floatCols → toNumericVal c = some v → normCellNamed h c = .float v)
    ∧ (h ∈ floatCols → toNumericVal c = none → normCellNamed h c = .float (.fin Dec.zero))
    ∧ (h ∈ intCols → toNumericVal c = some (.fin d) → normCellNamed h c = .int (astypeInt64 (.fin d)))
    ∧ (h ∈ intCols → toNumericVal c = none → normCellNamed h c = .int 0)
    ∧ (-(2 ^ 63) ≤ truncDec d → truncDec d < 2 ^ 63 → astypeInt64 (.fin d) = truncDec d)
    ∧ truncDec ⟨39, -1⟩ = 3
    ∧ truncDec ⟨-39, -1⟩ = -3
    ∧ (∀ e : Dec, 0 ≤ e.toQ → truncDec e = ⌊e.toQ⌋)
    ∧ (∀ e : Dec, e.toQ ≤ 0 → truncDec e = ⌈e.toQ⌉)
    ∧ (∀ (csv : Frame) (db0 : Option Table), csv.headers = schemaCols →
        hasInf csv "quantity" = true →
        csv_to_sqlite (some csv) db0 = ⟨db0, .caught .intCastingNaNError, false, false⟩) := by
  refine ⟨?_, ?_, ?_, ?_, ?_, by decide, by decide,
    fun e he => truncDec_floor e he, fun e he => truncDec_ceil e he, ?_⟩
  · intro hmem heq
    simp only [floatCols] at hmem
    fin_cases hmem <;> simp +decide [normCellNamed, heq]
  · intro hmem heq
    simp only [floatCols] at hmem
    fin_cases hmem <;> simp +decide [normCellNamed, heq]
  · intro hmem heq
    simp only [intCols] at hmem
    fin_cases hmem <;> simp +decide [normCellNamed, heq]
  · intro hmem heq
    simp only [intCols] at hmem
    fin_cases hmem <;> simp +decide [normCellNamed, heq, astypeInt64, truncDec, Dec.zero]
  · intro hlo hhi
    show (if -(2 ^ 63) ≤ truncDec d ∧ truncDec d < 2 ^ 63 then truncDec d else -(2 ^ 63)) = truncDec d
    exact if_pos ⟨hlo, hhi⟩
  · intro csv0 db00 hh hq
    have hpre : preprocessError csv0 = some .intCastingNaNError := by
      simp +decide [preprocessError, hh, hq]
    have hnf : normalizeFrame csv0 = .error .intCastingNaNError := by
      unfold normalizeFrame
      rw [hpre]
    simp [csv_to_sqlite, convertInner, hnf]

/-- C2 witness: sales `3.9` stores the number 3.9 and sales `inf`
stores Infinity; quantity `3.9` stores 3 and quantity `abc` stores 0;
a CSV whose quantity column holds `inf` aborts with
IntCastingNaNError before the database is touched. -/
theorem C2_numeric_normalization_witness :
    normCellNamed "sales" (Cell.str "3.9") = Cell.float (.fin ⟨39, -1⟩)
    ∧ normCellNamed "sales" (Cell.str "inf") = Cell.float .pinf
    ∧ normCellNamed "quantity" (Cell.str "3.9") = Cell.int 3
    ∧ normCellNamed "quantity" (Cell.str "abc") = Cell.int 0
    ∧ csv_to_sqlite (some infQtyCsv) none = ⟨none, .caught .intCastingNaNError, false, false⟩ := by
  refine ⟨?_, ?_, ?_, ?_, ?_⟩
  · exact (C2_numeric_normalization "sales" (Cell.str "3.9") (.fin ⟨39, -1⟩) ⟨0, 0⟩).1
      (by decide) (by decide)
  · exact (C2_numeric_normalization "sales" (Cell.str "inf") .pinf ⟨0, 0⟩).1
      (by decide) (by decide)
  · exact ((C2_numeric_normalization "quantity" (Cell.str "3.9") .pinf ⟨39, -1⟩).2.2.1
      (by decide) (by decide)).trans (by decide)
  · exact (C2_numeric_normalization "quantity" (Cell.str "abc") .pinf ⟨0, 0⟩).2.2.2.1
      (by decide) (by decide)
  · exact (C2_numeric_normalization "sales" Cell.missing .pinf ⟨0, 0⟩).2.2.2.2.2.2.2.2.2
      infQtyCsv none (by decide) (by decide)

/-- C3: for every text column, a missing cell is stored as the empty
string and every other cell is stored as its Python string form: a
string cell unchanged, an integer cell as its decimal form (an
all-numeric order_id column is read as int64, so 123 stores the text
`123`), and a float cell as CPython's float repr (a numeric column
holding a blank is read as float64, so there 123 is the float 123.0
and stores the text `123.0`; Infinity stores `inf`). -/
theorem C3_text_normalization (h : String) (s : String) (n : Int)
    (hmem : h ∈ textCols) :
    normCellNamed h Cell.missing = .str ""
    ∧ normCellNamed h (.str s) = .str s
    ∧ normCellNamed h (.int n) = .str (toString n)
    ∧ normCellNamed h (.float (.fin ⟨123, 0⟩)) = .str "123.0"
    ∧ normCellNamed h (.float (.fin ⟨1230, -1⟩)) = .str "123.0"
    ∧ normCellNamed h (.float (.fin ⟨39, -1⟩)) = .str "3.9"
    ∧ normCellNamed h (.float .pinf) = .str "inf" := by
  simp only [textCols] at hmem
  fin_cases hmem <;> exact ⟨rfl, rfl, rfl, by decide, by decide, by decide, rfl⟩

/-- C3 witness: the text normalization at the `order_id` column, with a
numeric-looking value 123 stored as the text `123` when integer-typed
and as `123.0` when float-typed. -/
theorem C3_text_normalization_witness :
    normCellNamed "order_id" Cell.missing = .str ""
    ∧ normCellNamed "order_id" (Cell.str "x") = .str "x"
    ∧ normCellNamed "order_id" (Cell.int 123) = .str (toString (123 : Int))
    ∧ normCellNamed "order_id" (Cell.float (.fin ⟨123, 0⟩)) = .str "123.0"
    ∧ normCellNamed "order_id" (Cell.float (.fin ⟨1230, -1⟩)) = .str "123.0"
    ∧ normCellNamed "order_id" (Cell.float (.fin ⟨39, -1⟩)) = .str "3.9"
    ∧ normCellNamed "order_id" (Cell.float .pinf) = .str "inf" :=
  C3_text_normalization "order_id" "x" 123 (by decide)

/-- C4: when the source CSV does not exist, the run reports the
FileNotFound outcome, never opens a connection, and leaves the
destination database exactly as it was. -/
theorem C4_missing_source (db0 : Option Table) :
    csv_to_sqlite none db0 = ⟨db0, Outcome.fileNotFound, false, false⟩ := rfl

/-- C5: on every successful run the reported count is the destination
table's total row count after insertion, that total is the prior row
count plus the number of CSV data rows, and so for a previously empty
(or freshly created) table it equals the number of CSV data rows. -/
theorem C5_row_count (csv : Frame) (db0 : Option Table) (n : Nat)
    (h : (csv_to_sqlite (some csv) db0).outcome = .success n) :
    ∃ t, (csv_to_sqlite (some csv) db0).db = some t
      ∧ n = t.rows.length
      ∧ t.rows.length = (db0.getD emptyTable).rows.length + csv.rows.length
      ∧ ((db0.getD emptyTable).rows = [] → t.rows.length = csv.rows.length) := by
  obtain ⟨hpre, hfd⟩ := guards_of_success csv db0 n h
  rw [run_of_guards csv db0 hpre hfd] at h ⊢
  have hn : (db0.getD emptyTable).rows.length + csv.rows.length = n := by
    simpa using h
  refine ⟨_, rfl, ?_, by simp, ?_⟩
  · simp [← hn]
  · intro he
    simp [he]

/-- C5 witness: the one-row demo CSV converted into a fresh database
reports 1 and stores 1 row. -/
theorem C5_row_count_witness :
    ∃ t, (csv_to_sqlite (some demoCsv) none).db = some t
      ∧ 1 = t.rows.length
      ∧ t.rows.length = (((none : Option Table)).getD emptyTable).rows.length + demoCsv.rows.length
      ∧ ((((none : Option Table)).getD emptyTable).rows = [] → t.rows.length = demoCsv.rows.length) :=
  C5_row_count demoCsv none 1 rfl

/-- C6: when a conversion into a fresh database succeeds, rerunning the
same conversion on the resulting database succeeds again: the existing
table is kept (same columns, CREATE TABLE IF NOT EXISTS is a no-op that
does not error) and the same rows are appended once more, duplicating
the contents rather than replacing them. -/
theorem C6_rerun_appends (csv : Frame) (n : Nat)
    (h : (csv_to_sqlite (some csv) none).outcome = .success n) :
    ∃ t1 t2 m,
      (csv_to_sqlite (some csv) none).db = some t1
      ∧ (csv_to_sqlite (some csv) (csv_to_sqlite (some csv) none).db).db = some t2
      ∧ (csv_to_sqlite (some csv) (csv_to_sqlite (some csv) none).db).outcome = .success m
      ∧ t2.cols = t1.cols
      ∧ t2.rows = t1.rows ++ t1.rows := by
  obtain ⟨hpre, hfd⟩ := guards_of_success csv none n h
  have h1 := run_of_guards csv none hpre hfd
  have h2 := run_of_guards csv
    (some ⟨((none : Option Table).getD emptyTable).cols,
           ((none : Option Table).getD emptyTable).rows ++
             csv.rows.map (fun row =>
               alignRow ((none : Option Table).getD emptyTable).cols csv.headers
                 (normalizeRow csv.headers row))⟩) hpre hfd
  rw [h1]
  simp only [Option.getD_some] at h2
  rw [h2]
  exact ⟨_, _, _, rfl, rfl, rfl, rfl, by simp [emptyTable]⟩

/-- C6 witness: the demo CSV run twice from a fresh database; the
second run keeps the table and doubles its rows. -/
theorem C6_rerun_appends_witness :
    ∃ t1 t2 m,
      (csv_to_sqlite (some demoCsv) none).db = some t1
      ∧ (csv_to_sqlite (some demoCsv) (csv_to_sqlite (some demoCsv) none).db).db = some t2
      ∧ (csv_to_sqlite (some demoCsv) (csv_to_sqlite (some demoCsv) none).db).outcome = .success m
      ∧ t2.cols = t1.cols
      ∧ t2.rows = t1.rows ++ t1.rows :=
  C6_rerun_appends demoCsv 1 rfl

/-- C7: on every successful run the destination table's final contents
are the prior rows followed by the image of the CSV data rows, in
source order, one inserted row per source row (a List.map introduces no
reordering and no deduplication). -/
theorem C7_order_preserved (csv : Frame) (db0 : Option Table) (n : Nat)
    (h : (csv_to_sqlite (some csv) db0).outcome = .success n) :
    ∃ t, (csv_to_sqlite (some csv) db0).db = some t
      ∧ t.rows = (db0.getD emptyTable).rows ++
          csv.rows.map (fun row =>
            alignRow (db0.getD emptyTable).cols csv.headers (normalizeRow csv.headers row)) := by
  obtain ⟨hpre, hfd⟩ := guards_of_success csv db0 n h
  rw [run_of_guards csv db0 hpre hfd]
  exact ⟨_, rfl, rfl⟩

/-- C7 witness: the two-row demo CSV with duplicate rows inserts both
rows, in order, with no deduplication. -/
theorem C7_order_preserved_witness :
    ∃ t, (csv_to_sqlite (some demoCsv2) none).db = some t
      ∧ t.rows = (((none : Option Table)).getD emptyTable).rows ++
          demoCsv2.rows.map (fun row =>
            alignRow (((none : Option Table)).getD emptyTable).cols demoCsv2.headers
              (normalizeRow demoCsv2.headers row)) :=
  C7_order_preserved demoCsv2 none 2 rfl

/-- C8 counterexample: on the extra-column CSV the run opens the
connection (line 46 runs) but the bulk insert raises, the catch-all
handler reports it, and the function returns without ever calling
`conn.close()` — refuting the claim that an opened connection is
released on every error path. -/
theorem C8_counterexample :
    (csv_to_sqlite (some extraColCsv) none).connOpened = true
    ∧ (csv_to_sqlite (some extraColCsv) none).connClosed = false
    ∧ (csv_to_sqlite (some extraColCsv) none).outcome =
        .caught (.operationalError "extra_col") := by
  exact ⟨rfl, rfl, by decide⟩

/-- C8 (amended): the connection is closed before returning exactly on
the success path — a run reports success if and only if it closed the
connection, and a closed connection implies one was opened; on error
paths after the connection is opened the function returns without
closing it. -/
theorem C8_close_iff_success (csvOpt : Option Frame) (db0 : Option Table) :
    ((∃ n, (csv_to_sqlite csvOpt db0).outcome = .success n) ↔
      (csv_to_sqlite csvOpt db0).connClosed = true)
    ∧ ((csv_to_sqlite csvOpt db0).connClosed = true →
      (csv_to_sqlite csvOpt db0).connOpened = true) := by
  rcases run_shape csvOpt db0 with ⟨_, he⟩ | ⟨csv, c, _, _, he⟩ | ⟨csv, c, _, _, _, he⟩ |
    ⟨csv, _, _, _, he⟩ <;> rw [he] <;> simp

/-- C8 witness: the success direction applied to the demo run, which
closes the connection it opened. -/
theorem C8_close_iff_success_witness :
    (csv_to_sqlite (some demoCsv) none).connClosed = true :=
  (C8_close_iff_success (some demoCsv) none).1.mp ⟨1, rfl⟩

/-- C9: the function always returns one of the three reported outcomes
(success, the dedicated FileNotFound report, or the catch-all report of
the raised exception), and the FileNotFound report happens exactly when
the source file is missing. -/
theorem C9_always_returns (csvOpt : Option Frame) (db0 : Option Table) :
    ((∃ n, (csv_to_sqlite csvOpt db0).outcome = .success n)
      ∨ (csv_to_sqlite csvOpt db0).outcome = .fileNotFound
      ∨ (∃ e, (csv_to_sqlite csvOpt db0).outcome = .caught e))
    ∧ ((csv_to_sqlite csvOpt db0).outcome = .fileNotFound ↔ csvOpt = none) := by
  rcases run_shape csvOpt db0 with ⟨hn, he⟩ | ⟨csv, c, hn, _, he⟩ | ⟨csv, c, hn, _, _, he⟩ |
    ⟨csv, hn, _, _, he⟩ <;> subst hn <;> rw [he] <;> simp

/-- C9 witness: the characterization applied at a missing source file. -/
theorem C9_always_returns_witness :
    (csv_to_sqlite none none).outcome = .fileNotFound ↔ (none : Option Frame) = none :=
  (C9_always_returns none none).2

/-- C10 counterexample: a CSV with all 21 required columns plus an
extra column, whose quantity value is `inf`, so the claim says the
table is created before the bulk append fails; the conversion instead
aborts at the `.astype(int)` of line 32 (IntCastingNaNError), before
`sqlite3.connect`, and no table is created at all. -/
theorem C10_counterexample :
    (∀ c ∈ accessOrderCols, c ∈ infExtraCsv.headers)
    ∧ ("extra_col" ∈ infExtraCsv.headers ∧ "extra_col" ∉ schemaCols)
    ∧ csv_to_sqlite (some infExtraCsv) none = ⟨none, .caught .intCastingNaNError, false, false⟩ := by
  refine ⟨by decide, ⟨by decide, by decide⟩, by decide⟩

/-- C10 (amended): a CSV holding all 21 required columns plus an extra
column, whose integer columns hold no non-finite value (so
preprocessing succeeds), passes preprocessing, the table is created
and committed, but the bulk append raises (the frame has a column the
21-column table lacks), so the run is reported by the catch-all
handler and the destination table exists with no rows.  (With a
non-finite quantity or year value the conversion instead aborts before
connecting, and no table is created.) -/
theorem C10_extra_column (csv : Frame)
    (hall : ∀ c ∈ accessOrderCols, c ∈ csv.headers)
    (hq : hasInf csv "quantity" = false) (hy : hasInf csv "year" = false)
    (hextra : ∃ c ∈ csv.headers, c ∉ schemaCols) :
    ∃ e, (csv_to_sqlite (some csv) none).outcome = .caught e
      ∧ (csv_to_sqlite (some csv) none).db = some emptyTable
      ∧ emptyTable.rows = [] := by
  have hpre : preprocessError csv = none := by
    have h1 := hall "order_date" (by decide)
    have h2 := hall "ship_date" (by decide)
    have h3 := hall "sales" (by decide)
    have h4 := hall "quantity" (by decide)
    have h5 := hall "discount" (by decide)
    have h6 := hall "profit" (by decide)
    have h7 := hall "shipping_cost" (by decide)
    have h8 := hall "year" (by decide)
    simp [preprocessError, h1, h2, h3, h4, h5, h6, h7, h8, hq, hy]
    intro x hx
    exact hall x (List.mem_append_right _ hx)
  obtain ⟨cbad, hcbadmem, hcbadnot⟩ := hextra
  rcases run_shape (some csv) none with ⟨hn, _⟩ | ⟨csv', e, hn, hpre', _⟩ |
    ⟨csv', c, hn, _, _, he⟩ | ⟨csv', hn, _, hfd, _⟩
  · exact absurd hn (by simp)
  · obtain rfl : csv = csv' := by injection hn
    rw [hpre] at hpre'
    exact absurd hpre' (by simp)
  · obtain rfl : csv = csv' := by injection hn
    refine ⟨.operationalError c, ?_, ?_, rfl⟩ <;> simp [he]
  · obtain rfl : csv = csv' := by injection hn
    exfalso
    have := List.find?_eq_none.mp hfd cbad hcbadmem
    simp [emptyTable] at this
    exact hcbadnot this

/-- C10 witness: the concrete 22-column CSV with finite values fails
with the catch-all report while the empty table was created and
committed. -/
theorem C10_extra_column_witness :
    ∃ e, (csv_to_sqlite (some extraColCsv) none).outcome = .caught e
      ∧ (csv_to_sqlite (some extraColCsv) none).db = some emptyTable
      ∧ emptyTable.rows = [] :=
  C10_extra_column extraColCsv (by decide) (by decide) (by decide) (by decide)

end CsvToSqlite
